import Mathlib

/-!
Verification of the frame-decoding pipeline of elwa-dc (src/main.rs).

The program polls a solar-thermal controller, receives one tab-separated
status line, and decodes it into a typed record.  The decoding pipeline is
the body of `handler` (src/main.rs lines 125-172):

  * `std::str::from_utf8(&data).unwrap()`   -- panics on invalid UTF-8;
  * `StatusTag::iter().zip(data_string.split('\t'))` collected into a
    `HashMap<StatusTag, &str>` -- positional binding of the 30 schema slots;
  * a `Status { .. }` struct literal whose field expressions run in source
    order; each expression indexes the map (`status_map[&tag]`, which panics
    when the key is absent) and then parses the token (`.parse::<..>()?`,
    which aborts the handler with a structured error on failure).

Embedding choices, all stated here once:

  * Raw frames are byte lists (`List Nat`, each entry one byte).  Tokens are
    byte lists as well; `&str` fields (firmware, seriennummer) are bound
    verbatim as their UTF-8 bytes, exactly as Rust borrows them.
  * Splitting on `'\t'` is modelled on bytes; in valid UTF-8 the byte 9
    occurs only as the tab character, so this agrees with `str::split('\t')`.
  * Numeric tokens are modelled with exact rationals (the type `Q` below,
    normalised pairs built with a fuel-driven gcd so that every definition
    evaluates inside the kernel).  The decimal grammar of Rust's
    `f32::from_str` is modelled exactly for finite decimal literals; the
    non-finite literals `inf`, `infinity` and `nan` have no exact-rational
    meaning and are rejected by the model (no claim depends on them), and
    the rounding of an exact decimal to the nearest `f32` is abstracted away.
  * `uom` quantities are represented by the value in the unit the code names
    at the construction site (`degree_celsius`, `volt`, `ampere`, `watt`,
    `watt_hour`); the claims speak in those units.
  * The three distinct failure channels of the Rust code are kept apart:
    `Failure.panicUtf8` (the `unwrap` on line 125), `Failure.panicMissing`
    (the `HashMap` index panic) and `Failure.parseError` (the `?` operator,
    which returns an `AppError` response to the caller).  Only the last one
    reaches the caller as a structured error value.
-/

deriving instance DecidableEq for Except

namespace ElwaDC

/-! ## Exact rationals that evaluate in the kernel -/

/-- Euclidean gcd with an explicit fuel argument (structural recursion, so
that concrete instances reduce during kernel evaluation). -/
def natGcdAux : Nat → Nat → Nat → Nat
  | 0, _, b => b
  | _ + 1, 0, b => b
  | fuel + 1, a + 1, b => natGcdAux fuel (b % (a + 1)) (a + 1)

/-- Greatest common divisor; `natGcd a b` agrees with the usual gcd because
the fuel `a + 1` bounds the number of Euclidean steps. -/
def natGcd (a b : Nat) : Nat := natGcdAux (a + 1) a b

/-- An exact rational number kept in lowest terms (positive denominator,
numerator and denominator coprime).  All arithmetic below normalises, so
propositional equality of reachable values is equality of rationals. -/
structure Q where
  num : Int
  den : Nat
  deriving DecidableEq

/-- Build a normalised rational from a numerator and a positive denominator. -/
def qMk (n : Int) (d : Nat) : Q :=
  if d = 0 then ⟨0, 1⟩
  else
    let g := natGcd n.natAbs d
    ⟨n / (g : Int), d / g⟩

instance : OfNat Q n := ⟨⟨(n : Int), 1⟩⟩

instance : Neg Q := ⟨fun a => ⟨-a.num, a.den⟩⟩

instance : Add Q := ⟨fun a b => qMk (a.num * (b.den : Int) + b.num * (a.den : Int)) (a.den * b.den)⟩

instance : Mul Q := ⟨fun a b => qMk (a.num * b.num) (a.den * b.den)⟩

/-- Reciprocal of a normalised rational. -/
def qInv (a : Q) : Q :=
  if a.num < 0 then ⟨-(a.den : Int), a.num.natAbs⟩
  else if a.num = 0 then ⟨0, 1⟩
  else ⟨(a.den : Int), a.num.natAbs⟩

instance : Div Q := ⟨fun a b => a * qInv b⟩

/-- Natural power of a rational. -/
def qPow (a : Q) : Nat → Q
  | 0 => 1
  | n + 1 => qPow a n * a

/-- Embed a natural number. -/
def qOfNat (n : Nat) : Q := ⟨(n : Int), 1⟩

/-! ## The field schema (Rust enum `StatusTag`, src/main.rs lines 23-55)

The thirty constructors appear in the declaration order of the Rust enum;
`strum::EnumIter` iterates them in exactly this order, and the zip with the
token stream makes this order the wire contract. -/

inductive StatusTag where
  | Dummy0
  | Firmware
  | Betriebstag
  | Status
  | DcTrenner
  | DcRelais
  | AcRelais
  | Wassertemp
  | WassertempMin
  | WassertempMax
  | SolltempSolar
  | SolltempNetz
  | GeraeteTemp
  | IsoMessung
  | Solarspannung
  | Dummy5
  | Solarstrom
  | Solarleistung
  | SolarenergieHeute
  | SolarenergieGesamt
  | NetzenergieHeute
  | Dummy6
  | Dummy7
  | Dummy8
  | Dummy9
  | Dummy10
  | Dummy11
  | Dummy12
  | Seriennummer
  | Dummy13
  deriving DecidableEq

/-- Wire position of each schema slot: the index of the constructor in the
declaration order of the Rust enum. -/
def tagIdx : StatusTag → Nat
  | .Dummy0 => 0
  | .Firmware => 1
  | .Betriebstag => 2
  | .Status => 3
  | .DcTrenner => 4
  | .DcRelais => 5
  | .AcRelais => 6
  | .Wassertemp => 7
  | .WassertempMin => 8
  | .WassertempMax => 9
  | .SolltempSolar => 10
  | .SolltempNetz => 11
  | .GeraeteTemp => 12
  | .IsoMessung => 13
  | .Solarspannung => 14
  | .Dummy5 => 15
  | .Solarstrom => 16
  | .Solarleistung => 17
  | .SolarenergieHeute => 18
  | .SolarenergieGesamt => 19
  | .NetzenergieHeute => 20
  | .Dummy6 => 21
  | .Dummy7 => 22
  | .Dummy8 => 23
  | .Dummy9 => 24
  | .Dummy10 => 25
  | .Dummy11 => 26
  | .Dummy12 => 27
  | .Seriennummer => 28
  | .Dummy13 => 29

/-! ## The decoded record (Rust struct `Status`, src/main.rs lines 57-88) -/

/-- The decoded status record.  Temperatures are degrees Celsius, voltage is
volt, current is ampere, power is watt, energies are watt-hours, exactly the
units named at each `uom` construction site; strings are the verbatim token
bytes the Rust code borrows. -/
structure Status where
  wassertemp : Q
  wassertemp_min : Q
  wassertemp_max : Q
  solltemp_solar : Q
  solltemp_netz : Q
  solarspannung : Q
  solarstrom : Q
  solarleistung : Q
  solarenergie_heute : Q
  solarenergie_gesamt : Q
  netzenergie_heute : Q
  iso_messung : Nat
  geraetetemp : Q
  status : Nat
  dc_trenner : Bool
  dc_relais : Bool
  ac_relais : Bool
  betriebstag : Nat
  firmware : List Nat
  seriennummer : List Nat
  deriving DecidableEq

/-! ## Failure channels of the decode pipeline -/

/-- How a decode can fail.  `panicUtf8` is the `unwrap` on
`std::str::from_utf8` (line 125), `panicMissing` is the `HashMap` index
panic on a tag with no bound token, and `parseError` is the `?` operator on
`str::parse`, the only channel that reaches the caller as a structured
error response. -/
inductive Failure where
  | panicUtf8
  | panicMissing (tag : StatusTag)
  | parseError (tag : StatusTag) (tok : List Nat)
  deriving DecidableEq

/-- Whether a failure is surfaced to the caller as a structured error value
(`Result::Err` flowing into an `AppError` response) rather than a panic that
unwinds the handler task. -/
def Failure.isStructuredError : Failure → Bool
  | .parseError _ _ => true
  | _ => false

/-! ## Token parsers (Rust `str::parse`) -/

/-- ASCII decimal digit. -/
def isDigit (b : Nat) : Bool := 48 ≤ b && b ≤ 57

/-- Value of a string of ASCII digits. -/
def digitsToNat (l : List Nat) : Nat := l.foldl (fun a b => a * 10 + (b - 48)) 0

/-- Split a byte list at the first byte satisfying `p`; the second component
is `none` when no byte matches. -/
def splitOnFirst (p : Nat → Bool) : List Nat → List Nat × Option (List Nat)
  | [] => ([], none)
  | b :: r =>
    if p b then ([], some r)
    else
      let (pre, rest) := splitOnFirst p r
      (b :: pre, rest)

/-- Rust `u32::from_str` / `u8::from_str`: an optional leading `+`, then one
or more ASCII digits, with a range check; anything else is an error. -/
def parseUnsigned (bound : Nat) (tok : List Nat) : Option Nat :=
  let ds :=
    match tok with
    | 43 :: r => r
    | r => r
  if !ds.isEmpty && ds.all isDigit then
    let v := digitsToNat ds
    if v < bound then some v else none
  else none

/-- Rust `str::parse::<u32>`. -/
def parseU32 : List Nat → Option Nat := parseUnsigned (2 ^ 32)

/-- Rust `str::parse::<u8>`. -/
def parseU8 : List Nat → Option Nat := parseUnsigned (2 ^ 8)

/-- Rust `str::parse::<f32>` on finite decimal literals, exactly:
optional sign, then `digits [. digits?] | . digits`, then an optional
exponent `e|E [sign] digits`; the value is the exact rational the literal
denotes.  The non-finite literals `inf`/`infinity`/`nan` are outside the
exact-rational model and rejected here. -/
def parseF32 (tok : List Nat) : Option Q :=
  let sb : Q × List Nat :=
    match tok with
    | 43 :: r => (1, r)
    | 45 :: r => (-1, r)
    | r => (1, r)
  let sgn := sb.1
  let body := sb.2
  let me := splitOnFirst (fun b => b = 101 || b = 69) body
  let mant := me.1
  let expPart := me.2
  let ifr := splitOnFirst (fun b => b = 46) mant
  let ipart := ifr.1
  let fpart := ifr.2.getD []
  if ipart.all isDigit && fpart.all isDigit && (!ipart.isEmpty || !fpart.isEmpty) then
    let mval : Q := qOfNat (digitsToNat ipart) + qOfNat (digitsToNat fpart) / qPow 10 fpart.length
    match expPart with
    | none => some (sgn * mval)
    | some ex =>
      let eb : Bool × List Nat :=
        match ex with
        | 43 :: r => (false, r)
        | 45 :: r => (true, r)
        | r => (false, r)
      let eneg := eb.1
      let edigits := eb.2
      if !edigits.isEmpty && edigits.all isDigit then
        if eneg then some (sgn * mval / qPow 10 (digitsToNat edigits))
        else some (sgn * mval * qPow 10 (digitsToNat edigits))
      else none
  else none

/-! ## Tokenizer and UTF-8 validation -/

/-- Rust `str::split('\t')` on the byte level: `n` tab bytes yield `n + 1`
tokens, the empty input yields one empty token, and no terminator of any
kind is stripped. -/
def splitTab : List Nat → List (List Nat)
  | [] => [[]]
  | 9 :: rest => [] :: splitTab rest
  | b :: rest =>
    match splitTab rest with
    | t :: ts => (b :: t) :: ts
    | [] => [[b]]

/-- A UTF-8 continuation byte. -/
def isCont (b : Nat) : Bool := 128 ≤ b && b ≤ 191

/-- Validity of a byte sequence as UTF-8, as checked by
`std::str::from_utf8`: the standard table of RFC 3629 (shortest forms only,
surrogates excluded, nothing above U+10FFFF). -/
def validUtf8 : List Nat → Bool
  | [] => true
  | b :: rest =>
    if b < 128 then validUtf8 rest
    else if b < 194 then false
    else if b ≤ 223 then
      match rest with
      | c1 :: r => isCont c1 && validUtf8 r
      | [] => false
    else if b ≤ 239 then
      match rest with
      | c1 :: c2 :: r =>
        (if b = 224 then 160 ≤ c1 && c1 ≤ 191
         else if b = 237 then 128 ≤ c1 && c1 ≤ 159
         else isCont c1) && isCont c2 && validUtf8 r
      | _ => false
    else if b ≤ 244 then
      match rest with
      | c1 :: c2 :: c3 :: r =>
        (if b = 240 then 144 ≤ c1 && c1 ≤ 191
         else if b = 244 then 128 ≤ c1 && c1 ≤ 143
         else isCont c1) && isCont c2 && isCont c3 && validUtf8 r
      | _ => false
    else false

/-! ## The decoder (body of `handler`, src/main.rs lines 125-172) -/

/-- Look up a tag in the positional binding and convert its token, with the
two failure modes of `status_map[&tag].parse::<..>()?`: a panic when the tag
is unbound (`HashMap` indexing), a structured error when the conversion
fails (the `?` operator). -/
def readParsed {α : Type} (p : List Nat → Option α) (m : StatusTag → Option (List Nat))
    (tag : StatusTag) : Except Failure α :=
  match m tag with
  | none => .error (.panicMissing tag)
  | some t =>
    match p t with
    | none => .error (.parseError tag t)
    | some a => .ok a

/-- `status_map[&tag].parse::<f32>()?`. -/
def readF32 : (StatusTag → Option (List Nat)) → StatusTag → Except Failure Q :=
  readParsed parseF32

/-- `status_map[&tag].parse::<u32>()?`. -/
def readU32 : (StatusTag → Option (List Nat)) → StatusTag → Except Failure Nat :=
  readParsed parseU32

/-- `status_map[&tag].parse::<u8>()?`. -/
def readU8 : (StatusTag → Option (List Nat)) → StatusTag → Except Failure Nat :=
  readParsed parseU8

/-- `status_map[&tag]`, bound verbatim (the two `&str` fields). -/
def readStr : (StatusTag → Option (List Nat)) → StatusTag → Except Failure (List Nat) :=
  readParsed some

/-- The `Status { .. }` struct literal of `handler`: the twenty field
expressions evaluated in their source order (Rust evaluates struct literal
fields textually in order), each one aborting the whole construction at its
first failure.  The divisions by `10.0` on the five tenths-scaled
temperatures are the only scalings present in the source. -/
def decodeFromMap (m : StatusTag → Option (List Nat)) : Except Failure Status :=
  match readF32 m .Wassertemp with
  | .error e => .error e
  | .ok wt =>
  match readF32 m .WassertempMin with
  | .error e => .error e
  | .ok wtmin =>
  match readF32 m .WassertempMax with
  | .error e => .error e
  | .ok wtmax =>
  match readF32 m .SolltempSolar with
  | .error e => .error e
  | .ok tss =>
  match readF32 m .SolltempNetz with
  | .error e => .error e
  | .ok tsn =>
  match readF32 m .Solarspannung with
  | .error e => .error e
  | .ok sv =>
  match readF32 m .Solarstrom with
  | .error e => .error e
  | .ok sc =>
  match readF32 m .Solarleistung with
  | .error e => .error e
  | .ok sl =>
  match readF32 m .SolarenergieHeute with
  | .error e => .error e
  | .ok eh =>
  match readF32 m .SolarenergieGesamt with
  | .error e => .error e
  | .ok eg =>
  match readF32 m .NetzenergieHeute with
  | .error e => .error e
  | .ok ng =>
  match readU32 m .IsoMessung with
  | .error e => .error e
  | .ok iso =>
  match readF32 m .GeraeteTemp with
  | .error e => .error e
  | .ok gt =>
  match readU32 m .Status with
  | .error e => .error e
  | .ok st =>
  match readU8 m .DcTrenner with
  | .error e => .error e
  | .ok dt =>
  match readU8 m .DcRelais with
  | .error e => .error e
  | .ok dre =>
  match readU8 m .AcRelais with
  | .error e => .error e
  | .ok ar =>
  match readU32 m .Betriebstag with
  | .error e => .error e
  | .ok bt =>
  match readStr m .Firmware with
  | .error e => .error e
  | .ok fw =>
  match readStr m .Seriennummer with
  | .error e => .error e
  | .ok sn =>
  .ok
    { wassertemp := wt / 10
      wassertemp_min := wtmin / 10
      wassertemp_max := wtmax / 10
      solltemp_solar := tss / 10
      solltemp_netz := tsn / 10
      solarspannung := sv
      solarstrom := sc
      solarleistung := sl
      solarenergie_heute := eh
      solarenergie_gesamt := eg
      netzenergie_heute := ng
      iso_messung := iso
      geraetetemp := gt
      status := st
      dc_trenner := dt != 0
      dc_relais := dre != 0
      ac_relais := ar != 0
      betriebstag := bt
      firmware := fw
      seriennummer := sn }

/-- The positional binding `StatusTag::iter().zip(data_string.split('\t'))`
collected into a map: the tag at wire position `i` is bound to the `i`-th
token when one exists.  Every tag has position below 30, so the truncation
of `zip` at the shorter sequence is exactly `List.getElem?`. -/
def bindToks (toks : List (List Nat)) (tag : StatusTag) : Option (List Nat) :=
  toks[tagIdx tag]?

/-- Decode an already-tokenized frame. -/
def decodeToks (toks : List (List Nat)) : Except Failure Status :=
  decodeFromMap (bindToks toks)

/-- The whole decode pipeline on the raw frame bytes: the UTF-8 check of
line 125 (panicking on failure), then tab-splitting, positional binding and
field conversion. -/
def decodeBytes (b : List Nat) : Except Failure Status :=
  if validUtf8 b then decodeToks (splitTab b) else .error .panicUtf8

/-- Byte list of an ASCII string literal (used only to write concrete test
frames readably). -/
def ascii (s : String) : List Nat := s.data.map Char.toNat

/-- Which tokens the per-slot converter accepts: the `f32` slots, the `u32`
slots and the `u8` slots accept what their parser accepts; the two string
slots accept everything; slots never read accept everything. -/
def tagParses : StatusTag → List Nat → Bool
  | .Wassertemp, t => (parseF32 t).isSome
  | .WassertempMin, t => (parseF32 t).isSome
  | .WassertempMax, t => (parseF32 t).isSome
  | .SolltempSolar, t => (parseF32 t).isSome
  | .SolltempNetz, t => (parseF32 t).isSome
  | .Solarspannung, t => (parseF32 t).isSome
  | .Solarstrom, t => (parseF32 t).isSome
  | .Solarleistung, t => (parseF32 t).isSome
  | .SolarenergieHeute, t => (parseF32 t).isSome
  | .SolarenergieGesamt, t => (parseF32 t).isSome
  | .NetzenergieHeute, t => (parseF32 t).isSome
  | .GeraeteTemp, t => (parseF32 t).isSome
  | .IsoMessung, t => (parseU32 t).isSome
  | .Status, t => (parseU32 t).isSome
  | .Betriebstag, t => (parseU32 t).isSome
  | .DcTrenner, t => (parseU8 t).isSome
  | .DcRelais, t => (parseU8 t).isSome
  | .AcRelais, t => (parseU8 t).isSome
  | _, _ => true

/-- The twenty schema slots the record construction reads. -/
def usedTags : List StatusTag :=
  [.Wassertemp, .WassertempMin, .WassertempMax, .SolltempSolar, .SolltempNetz,
   .Solarspannung, .Solarstrom, .Solarleistung, .SolarenergieHeute,
   .SolarenergieGesamt, .NetzenergieHeute, .IsoMessung, .GeraeteTemp,
   .Status, .DcTrenner, .DcRelais, .AcRelais, .Betriebstag, .Firmware,
   .Seriennummer]

/-- The sample frame of spec section 8, 31 tab-separated tokens. -/
def sampleFrame : List Nat :=
  ascii "dr\tV1.31\t35\t12\t1\t1\t1\t235\t175\t245\t759\t650\t25\t90\t189.5\t190.03\t1.1435\t217.29\t778\t91725\t0\t-7\t7.9\t525\t368\t358\t240\t1\t12010023021000023\t759\t6"

/-- The record the source code produces on the sample frame. -/
def sampleStatus : Status where
  wassertemp := 47 / 2
  wassertemp_min := 35 / 2
  wassertemp_max := 49 / 2
  solltemp_solar := 759 / 10
  solltemp_netz := 65
  solarspannung := 379 / 2
  solarstrom := 2287 / 2000
  solarleistung := 21729 / 100
  solarenergie_heute := 778
  solarenergie_gesamt := 91725
  netzenergie_heute := 0
  iso_messung := 90
  geraetetemp := 25
  status := 12
  dc_trenner := true
  dc_relais := true
  ac_relais := true
  betriebstag := 35
  firmware := ascii "V1.31"
  seriennummer := ascii "12010023021000023"

/-- A frame truncated long before the first slot the record construction
reads (only tokens for positions 0 to 2). -/
def shortFrame : List Nat := ascii "dr\tV1.31\t35"

/-- The sample frame with the token `235` in all six temperature slots
(positions 7 to 12). -/
def frameC6 : List Nat :=
  ascii "dr\tV1.31\t35\t12\t1\t1\t1\t235\t235\t235\t235\t235\t235\t90\t189.5\t190.03\t1.1435\t217.29\t778\t91725\t0\t-7\t7.9\t525\t368\t358\t240\t1\t12010023021000023\t759\t6"

/-- The record the source code produces on `frameC6`. -/
def statusC6 : Status :=
  { sampleStatus with
    wassertemp := 47 / 2
    wassertemp_min := 47 / 2
    wassertemp_max := 47 / 2
    solltemp_solar := 47 / 2
    solltemp_netz := 47 / 2
    geraetetemp := 235 }

/-- The sample frame with the nonzero integer token `256` in the
`DcTrenner` slot (position 4); `256` overflows `u8`. -/
def frameC7 : List Nat :=
  ascii "dr\tV1.31\t35\t12\t256\t1\t1\t235\t175\t245\t759\t650\t25\t90\t189.5\t190.03\t1.1435\t217.29\t778\t91725\t0\t-7\t7.9\t525\t368\t358\t240\t1\t12010023021000023"

/-- A 29-token frame whose last token is the serial number followed by the
CR LF line terminator, exactly as a device that omits the trailing reserved
fields would send it. -/
def frameC9 : List Nat :=
  ascii "dr\tV1.31\t35\t12\t1\t1\t1\t235\t175\t245\t759\t650\t25\t90\t189.5\t190.03\t1.1435\t217.29\t778\t91725\t0\t-7\t7.9\t525\t368\t358\t240\t1\t12010023021000023\r\n"

/-- The record the source code produces on `frameC9`: identical to the
sample record except that the serial number carries the terminator bytes. -/
def statusC9 : Status :=
  { sampleStatus with seriennummer := ascii "12010023021000023\r\n" }

/-! ## Inversion lemmas for the readers -/

theorem readParsed_ok {α : Type} {p : List Nat → Option α} {m : StatusTag → Option (List Nat)}
    {tag : StatusTag} {a : α} (h : readParsed p m tag = .ok a) :
    ∃ t, m tag = some t ∧ p t = some a := by
  unfold readParsed at h
  split at h
  · exact Except.noConfusion h
  · rename_i t ht
    split at h
    · exact Except.noConfusion h
    · rename_i a0 hp
      injection h with h
      exact ⟨t, ht, h ▸ hp⟩

theorem readParsed_err_parse {α : Type} {p : List Nat → Option α}
    {m : StatusTag → Option (List Nat)} {tag tg : StatusTag} {t : List Nat}
    (h : readParsed p m tag = .error (.parseError tg t)) :
    tg = tag ∧ m tag = some t ∧ p t = none := by
  unfold readParsed at h
  split at h
  · simp at h
  · rename_i t0 ht
    split at h
    · rename_i hp
      injection h with h
      injection h with h1 h2
      exact ⟨h1.symm, h2 ▸ ht, h2 ▸ hp⟩
    · exact Except.noConfusion h

theorem readParsed_err_missing {α : Type} {p : List Nat → Option α}
    {m : StatusTag → Option (List Nat)} {tag tg : StatusTag}
    (h : readParsed p m tag = .error (.panicMissing tg)) :
    tg = tag ∧ m tag = none := by
  unfold readParsed at h
  split at h
  · rename_i hm
    injection h with h
    injection h with h1
    exact ⟨h1.symm, hm⟩
  · rename_i t0 ht
    split at h
    · simp at h
    · exact Except.noConfusion h

theorem readParsed_congr {α : Type} {p : List Nat → Option α}
    {m1 m2 : StatusTag → Option (List Nat)} (tag : StatusTag) (hm : m1 tag = m2 tag) :
    readParsed p m1 tag = readParsed p m2 tag := by
  unfold readParsed
  rw [hm]

/-! ## Inversion lemmas for the whole record construction -/

/-- A successful decode determines every field: each used slot was bound to
a token, the token parsed, and the field holds the parsed value with
exactly the scaling written in the source (division by ten on the five
tenths-scaled temperatures, nothing anywhere else). -/
theorem decode_ok_fields {m : StatusTag → Option (List Nat)} {s : Status}
    (h : decodeFromMap m = .ok s) :
    (∃ t q, m .Wassertemp = some t ∧ parseF32 t = some q ∧ s.wassertemp = q / 10)
    ∧ (∃ t q, m .WassertempMin = some t ∧ parseF32 t = some q ∧ s.wassertemp_min = q / 10)
    ∧ (∃ t q, m .WassertempMax = some t ∧ parseF32 t = some q ∧ s.wassertemp_max = q / 10)
    ∧ (∃ t q, m .SolltempSolar = some t ∧ parseF32 t = some q ∧ s.solltemp_solar = q / 10)
    ∧ (∃ t q, m .SolltempNetz = some t ∧ parseF32 t = some q ∧ s.solltemp_netz = q / 10)
    ∧ (∃ t, m .Solarspannung = some t ∧ parseF32 t = some s.solarspannung)
    ∧ (∃ t, m .Solarstrom = some t ∧ parseF32 t = some s.solarstrom)
    ∧ (∃ t, m .Solarleistung = some t ∧ parseF32 t = some s.solarleistung)
    ∧ (∃ t, m .SolarenergieHeute = some t ∧ parseF32 t = some s.solarenergie_heute)
    ∧ (∃ t, m .SolarenergieGesamt = some t ∧ parseF32 t = some s.solarenergie_gesamt)
    ∧ (∃ t, m .NetzenergieHeute = some t ∧ parseF32 t = some s.netzenergie_heute)
    ∧ (∃ t, m .IsoMessung = some t ∧ parseU32 t = some s.iso_messung)
    ∧ (∃ t, m .GeraeteTemp = some t ∧ parseF32 t = some s.geraetetemp)
    ∧ (∃ t, m .Status = some t ∧ parseU32 t = some s.status)
    ∧ (∃ t n, m .DcTrenner = some t ∧ parseU8 t = some n ∧ s.dc_trenner = (n != 0))
    ∧ (∃ t n, m .DcRelais = some t ∧ parseU8 t = some n ∧ s.dc_relais = (n != 0))
    ∧ (∃ t n, m .AcRelais = some t ∧ parseU8 t = some n ∧ s.ac_relais = (n != 0))
    ∧ (∃ t, m .Betriebstag = some t ∧ parseU32 t = some s.betriebstag)
    ∧ (∃ t, m .Firmware = some t ∧ s.firmware = t)
    ∧ (∃ t, m .Seriennummer = some t ∧ s.seriennummer = t) := by
  unfold decodeFromMap at h
  split at h
  · exact Except.noConfusion h
  rename_i wt hwt
  split at h
  · exact Except.noConfusion h
  rename_i wtmin hwtmin
  split at h
  · exact Except.noConfusion h
  rename_i wtmax hwtmax
  split at h
  · exact Except.noConfusion h
  rename_i tss htss
  split at h
  · exact Except.noConfusion h
  rename_i tsn htsn
  split at h
  · exact Except.noConfusion h
  rename_i sv hsv
  split at h
  · exact Except.noConfusion h
  rename_i sc hsc
  split at h
  · exact Except.noConfusion h
  rename_i sl hsl
  split at h
  · exact Except.noConfusion h
  rename_i eh heh
  split at h
  · exact Except.noConfusion h
  rename_i eg heg
  split at h
  · exact Except.noConfusion h
  rename_i ng hng
  split at h
  · exact Except.noConfusion h
  rename_i iso hiso
  split at h
  · exact Except.noConfusion h
  rename_i gt hgt
  split at h
  · exact Except.noConfusion h
  rename_i st hst
  split at h
  · exact Except.noConfusion h
  rename_i dt hdt
  split at h
  · exact Except.noConfusion h
  rename_i dre hdre
  split at h
  · exact Except.noConfusion h
  rename_i ar har
  split at h
  · exact Except.noConfusion h
  rename_i bt hbt
  split at h
  · exact Except.noConfusion h
  rename_i fw hfw
  split at h
  · exact Except.noConfusion h
  rename_i sn hsn
  injection h with h
  subst h
  obtain ⟨t1, ht1, hp1⟩ := readParsed_ok hwt
  obtain ⟨t2, ht2, hp2⟩ := readParsed_ok hwtmin
  obtain ⟨t3, ht3, hp3⟩ := readParsed_ok hwtmax
  obtain ⟨t4, ht4, hp4⟩ := readParsed_ok htss
  obtain ⟨t5, ht5, hp5⟩ := readParsed_ok htsn
  obtain ⟨t6, ht6, hp6⟩ := readParsed_ok hsv
  obtain ⟨t7, ht7, hp7⟩ := readParsed_ok hsc
  obtain ⟨t8, ht8, hp8⟩ := readParsed_ok hsl
  obtain ⟨t9, ht9, hp9⟩ := readParsed_ok heh
  obtain ⟨t10, ht10, hp10⟩ := readParsed_ok heg
  obtain ⟨t11, ht11, hp11⟩ := readParsed_ok hng
  obtain ⟨t12, ht12, hp12⟩ := readParsed_ok hiso
  obtain ⟨t13, ht13, hp13⟩ := readParsed_ok hgt
  obtain ⟨t14, ht14, hp14⟩ := readParsed_ok hst
  obtain ⟨t15, ht15, hp15⟩ := readParsed_ok hdt
  obtain ⟨t16, ht16, hp16⟩ := readParsed_ok hdre
  obtain ⟨t17, ht17, hp17⟩ := readParsed_ok har
  obtain ⟨t18, ht18, hp18⟩ := readParsed_ok hbt
  obtain ⟨t19, ht19, hp19⟩ := readParsed_ok hfw
  obtain ⟨t20, ht20, hp20⟩ := readParsed_ok hsn
  exact ⟨⟨t1, wt, ht1, hp1, rfl⟩, ⟨t2, wtmin, ht2, hp2, rfl⟩, ⟨t3, wtmax, ht3, hp3, rfl⟩,
    ⟨t4, tss, ht4, hp4, rfl⟩, ⟨t5, tsn, ht5, hp5, rfl⟩, ⟨t6, ht6, hp6⟩, ⟨t7, ht7, hp7⟩,
    ⟨t8, ht8, hp8⟩, ⟨t9, ht9, hp9⟩, ⟨t10, ht10, hp10⟩, ⟨t11, ht11, hp11⟩, ⟨t12, ht12, hp12⟩,
    ⟨t13, ht13, hp13⟩, ⟨t14, ht14, hp14⟩, ⟨t15, dt, ht15, hp15, rfl⟩,
    ⟨t16, dre, ht16, hp16, rfl⟩, ⟨t17, ar, ht17, hp17, rfl⟩, ⟨t18, ht18, hp18⟩,
    ⟨t19, ht19, (Option.some.inj hp19).symm⟩, ⟨t20, ht20, (Option.some.inj hp20).symm⟩⟩

/-- A structured parse error names a slot that was really bound to that
token, and the token really fails that slot's converter. -/
theorem decode_err_parse {m : StatusTag → Option (List Nat)} {tg : StatusTag} {t : List Nat}
    (h : decodeFromMap m = .error (.parseError tg t)) :
    m tg = some t ∧ tagParses tg t = false := by
  unfold decodeFromMap at h
  repeat' split at h
  all_goals first
  | exact Except.noConfusion h
  | (rename_i e heq
     injection h with h
     subst h
     obtain ⟨rfl, hm, hp⟩ := readParsed_err_parse heq
     refine ⟨hm, ?_⟩
     simp only [tagParses, hp]
     all_goals rfl)
  | (rename_i e heq
     injection h with h
     subst h
     obtain ⟨rfl, hm, hp⟩ := readParsed_err_parse heq
     exact Option.noConfusion hp)

/-- A missing-key panic names a slot that really has no bound token. -/
theorem decode_err_missing {m : StatusTag → Option (List Nat)} {tg : StatusTag}
    (h : decodeFromMap m = .error (.panicMissing tg)) :
    m tg = none := by
  unfold decodeFromMap at h
  repeat' split at h
  all_goals first
  | exact Except.noConfusion h
  | (rename_i e heq
     injection h with h
     subst h
     obtain ⟨rfl, hm⟩ := readParsed_err_missing heq
     exact hm)

theorem readParsed_ne_utf8 {α : Type} {p : List Nat → Option α}
    {m : StatusTag → Option (List Nat)} {tag : StatusTag} :
    readParsed p m tag ≠ .error .panicUtf8 := by
  unfold readParsed
  split
  · simp
  · split <;> simp

/-- The record construction never produces the UTF-8 panic. -/
theorem decode_no_utf8 {m : StatusTag → Option (List Nat)}
    (h : decodeFromMap m = .error .panicUtf8) : False := by
  unfold decodeFromMap at h
  repeat' split at h
  all_goals first
  | exact Except.noConfusion h
  | (rename_i e heq
     injection h with h
     subst h
     exact readParsed_ne_utf8 heq)

/-- The decode reads the binding only at the twenty used slots. -/
theorem decodeFromMap_congr {m1 m2 : StatusTag → Option (List Nat)}
    (hm : ∀ tag ∈ usedTags, m1 tag = m2 tag) :
    decodeFromMap m1 = decodeFromMap m2 := by
  unfold decodeFromMap readF32 readU32 readU8 readStr
  rw [readParsed_congr (p := parseF32) .Wassertemp (hm _ (by decide)),
    readParsed_congr (p := parseF32) .WassertempMin (hm _ (by decide)),
    readParsed_congr (p := parseF32) .WassertempMax (hm _ (by decide)),
    readParsed_congr (p := parseF32) .SolltempSolar (hm _ (by decide)),
    readParsed_congr (p := parseF32) .SolltempNetz (hm _ (by decide)),
    readParsed_congr (p := parseF32) .Solarspannung (hm _ (by decide)),
    readParsed_congr (p := parseF32) .Solarstrom (hm _ (by decide)),
    readParsed_congr (p := parseF32) .Solarleistung (hm _ (by decide)),
    readParsed_congr (p := parseF32) .SolarenergieHeute (hm _ (by decide)),
    readParsed_congr (p := parseF32) .SolarenergieGesamt (hm _ (by decide)),
    readParsed_congr (p := parseF32) .NetzenergieHeute (hm _ (by decide)),
    readParsed_congr (p := parseU32) .IsoMessung (hm _ (by decide)),
    readParsed_congr (p := parseF32) .GeraeteTemp (hm _ (by decide)),
    readParsed_congr (p := parseU32) .Status (hm _ (by decide)),
    readParsed_congr (p := parseU8) .DcTrenner (hm _ (by decide)),
    readParsed_congr (p := parseU8) .DcRelais (hm _ (by decide)),
    readParsed_congr (p := parseU8) .AcRelais (hm _ (by decide)),
    readParsed_congr (p := parseU32) .Betriebstag (hm _ (by decide)),
    readParsed_congr (p := some) .Firmware (hm _ (by decide)),
    readParsed_congr (p := some) .Seriennummer (hm _ (by decide))]

/-! ## Claim C1 -/

/-- Claim C1, counterexample: on the exact sample frame of spec section 8
decoding succeeds, but against the claimed values the code binds position 12
(`25`) to the device temperature and position 13 (`90`) to the insulation
measurement, and the reserved slot `Dummy5` at position 15 swallows
`190.03`, so the current is 1.1435 A (not 190.03 A) and the power is
217.29 W (not 1.1435 W). -/
theorem claim_c1_counterexample :
    decodeBytes sampleFrame = .ok sampleStatus
    ∧ sampleStatus.solarstrom ≠ 19003 / 100
    ∧ sampleStatus.solarleistung ≠ 11435 / 10000
    ∧ sampleStatus.geraetetemp ≠ 90
    ∧ sampleStatus.iso_messung ≠ 25 := by decide

/-- Claim C1, amended: decoding the sample frame of spec section 8 succeeds
and produces firmware `V1.31`, betriebstag 35, status 12, all three relay
flags true, wassertemp 23.5, min 17.5, max 24.5, solltemp_solar 75.9,
solltemp_netz 65.0 (degrees Celsius), geraetetemp 25 (unscaled),
iso_messung 90, solarspannung 189.5 V, solarstrom 1.1435 A, solarleistung
217.29 W, the three energies 778, 91725, 0 Wh (no divisor anywhere on
power or energy), and seriennummer `12010023021000023`. -/
theorem claim_c1_amended :
    decodeBytes sampleFrame = .ok sampleStatus
    ∧ sampleStatus.firmware = ascii "V1.31"
    ∧ sampleStatus.betriebstag = 35
    ∧ sampleStatus.status = 12
    ∧ sampleStatus.dc_trenner = true
    ∧ sampleStatus.dc_relais = true
    ∧ sampleStatus.ac_relais = true
    ∧ sampleStatus.wassertemp = 47 / 2
    ∧ sampleStatus.wassertemp_min = 35 / 2
    ∧ sampleStatus.wassertemp_max = 49 / 2
    ∧ sampleStatus.solltemp_solar = 759 / 10
    ∧ sampleStatus.solltemp_netz = 65
    ∧ sampleStatus.geraetetemp = 25
    ∧ sampleStatus.iso_messung = 90
    ∧ sampleStatus.solarspannung = 379 / 2
    ∧ sampleStatus.solarstrom = 11435 / 10000
    ∧ sampleStatus.solarleistung = 21729 / 100
    ∧ sampleStatus.solarenergie_heute = 778
    ∧ sampleStatus.solarenergie_gesamt = 91725
    ∧ sampleStatus.netzenergie_heute = 0
    ∧ sampleStatus.seriennummer = ascii "12010023021000023" := by decide

/-! ## Claim C2 -/

/-- Claim C2, counterexample: a frame truncated before the water
temperature slot does not return a structured `FieldMissingError` to the
caller; the `HashMap` indexing panics (the failure is on the panic channel,
not the structured-error channel). -/
theorem claim_c2_counterexample :
    decodeBytes shortFrame = .error (.panicMissing .Wassertemp)
    ∧ Failure.isStructuredError (.panicMissing .Wassertemp) = false := by decide

/-- Claim C2, amended: a frame with fewer tokens than the 29 positions the
record construction needs never yields a record.  It aborts either with the
missing-key panic at the first evaluated slot that has no token (and that
slot really has no token at its wire position — nothing is decoded at
shifted positions), or with a structured parse error of an
earlier-evaluated slot that is present but malformed. -/
theorem claim_c2_truncated (toks : List (List Nat)) (h : toks.length < 29) :
    (∀ s, decodeToks toks ≠ .ok s)
    ∧ ∃ e, decodeToks toks = .error e
        ∧ (∀ tag, e = .panicMissing tag → toks[tagIdx tag]? = none)
        ∧ (∀ tag t, e = .parseError tag t →
            toks[tagIdx tag]? = some t ∧ tagParses tag t = false) := by
  have hok : ∀ s, decodeToks toks ≠ .ok s := by
    intro s hs
    unfold decodeToks at hs
    obtain ⟨-, -, -, -, -, -, -, -, -, -, -, -, -, -, -, -, -, -, -, hser⟩ :=
      decode_ok_fields hs
    obtain ⟨t, ht, -⟩ := hser
    have h28 : toks[(28 : Nat)]? = some t := ht
    rcases Nat.lt_or_ge 28 toks.length with hlt | hge
    · omega
    · rw [List.getElem?_eq_none hge] at h28
      exact Option.noConfusion h28
  refine ⟨hok, ?_⟩
  cases hd : decodeToks toks with
  | ok s => exact absurd hd (hok s)
  | error e =>
    refine ⟨e, rfl, ?_, ?_⟩
    · intro tag he
      subst he
      unfold decodeToks at hd
      exact decode_err_missing hd
    · intro tag t he
      subst he
      unfold decodeToks at hd
      exact decode_err_parse hd

/-- Claim C2, witness: the amended statement applied to the concrete
truncated frame `dr \t V1.31 \t 35`. -/
theorem claim_c2_truncated_witness :
    (∀ s, decodeToks (splitTab shortFrame) ≠ .ok s)
    ∧ ∃ e, decodeToks (splitTab shortFrame) = .error e
        ∧ (∀ tag, e = .panicMissing tag → (splitTab shortFrame)[tagIdx tag]? = none)
        ∧ (∀ tag t, e = .parseError tag t →
            (splitTab shortFrame)[tagIdx tag]? = some t ∧ tagParses tag t = false) :=
  claim_c2_truncated (splitTab shortFrame) (by decide)

/-! ## Claim C3 -/

/-- Claim C3, counterexample: on the sample frame the power token `217.29`
is taken as 217.29 W, not 0.21729 W, and the energy token `778` as 778 Wh,
not 0.778 Wh: no division by 1000 happens. -/
theorem claim_c3_counterexample :
    decodeBytes sampleFrame = .ok sampleStatus
    ∧ parseF32 (ascii "217.29") = some (21729 / 100)
    ∧ sampleStatus.solarleistung = 21729 / 100
    ∧ sampleStatus.solarleistung ≠ 21729 / 100 / 1000
    ∧ parseF32 (ascii "778") = some 778
    ∧ sampleStatus.solarenergie_heute = 778
    ∧ sampleStatus.solarenergie_heute ≠ 778 / 1000 := by decide

/-- Claim C3, amended: the decoder applies no divisor at all outside the
five tenths-scaled temperatures; the power field, the three energy fields,
voltage, current, device temperature and the integer counters all hold
exactly the parsed value of their wire token. -/
theorem claim_c3_amended (toks : List (List Nat)) (s : Status)
    (h : decodeToks toks = .ok s) :
    (∃ t, toks[(17 : Nat)]? = some t ∧ parseF32 t = some s.solarleistung)
    ∧ (∃ t, toks[(18 : Nat)]? = some t ∧ parseF32 t = some s.solarenergie_heute)
    ∧ (∃ t, toks[(19 : Nat)]? = some t ∧ parseF32 t = some s.solarenergie_gesamt)
    ∧ (∃ t, toks[(20 : Nat)]? = some t ∧ parseF32 t = some s.netzenergie_heute)
    ∧ (∃ t, toks[(14 : Nat)]? = some t ∧ parseF32 t = some s.solarspannung)
    ∧ (∃ t, toks[(16 : Nat)]? = some t ∧ parseF32 t = some s.solarstrom)
    ∧ (∃ t, toks[(12 : Nat)]? = some t ∧ parseF32 t = some s.geraetetemp)
    ∧ (∃ t, toks[(13 : Nat)]? = some t ∧ parseU32 t = some s.iso_messung)
    ∧ (∃ t, toks[(3 : Nat)]? = some t ∧ parseU32 t = some s.status)
    ∧ (∃ t, toks[(2 : Nat)]? = some t ∧ parseU32 t = some s.betriebstag) := by
  unfold decodeToks at h
  obtain ⟨-, -, -, -, -, hsv, hsc, hsl, heh, heg, hng, hiso, hgt, hst, -, -, -, hbt, -, -⟩ :=
    decode_ok_fields h
  exact ⟨hsl, heh, heg, hng, hsv, hsc, hgt, hiso, hst, hbt⟩

/-- Claim C3, witness: the amended statement applied to the sample frame. -/
theorem claim_c3_amended_witness :
    ∃ t, (splitTab sampleFrame)[(17 : Nat)]? = some t
      ∧ parseF32 t = some sampleStatus.solarleistung :=
  (claim_c3_amended (splitTab sampleFrame) sampleStatus (by decide)).1

/-! ## Claim C4 -/

/-- Claim C4, counterexample: the invalid byte 0xFF makes the decode fail
on the panic channel (`from_utf8(..).unwrap()`), not as a structured error
result returned to the caller. -/
theorem claim_c4_counterexample :
    validUtf8 [255] = false
    ∧ decodeBytes [255] = .error .panicUtf8
    ∧ Failure.isStructuredError .panicUtf8 = false := by decide

/-- Claim C4, amended: every byte sequence that is not valid UTF-8 makes
the decode abort before any field is read, with the UTF-8 panic — no record
is produced, but the failure is a panic, not an error result propagated to
the caller. -/
theorem claim_c4_amended (b : List Nat) (h : validUtf8 b = false) :
    decodeBytes b = .error .panicUtf8
    ∧ Failure.isStructuredError .panicUtf8 = false := by
  refine ⟨?_, rfl⟩
  simp [decodeBytes, h]

/-- Claim C4, witness: the amended statement applied to the single invalid
byte 0xFF. -/
theorem claim_c4_amended_witness :
    decodeBytes [255] = .error .panicUtf8
    ∧ Failure.isStructuredError .panicUtf8 = false :=
  claim_c4_amended [255] (by decide)

/-! ## Claim C5 -/

/-- Claim C5: decoding is all-or-nothing.  Every decode either returns a
fully populated record or fails with no record at all — the failure value
carries no field data, and when it is a structured parse error it names a
slot that is really bound to the offending token, which really fails that
slot's converter.  (No partially filled record exists on any path.) -/
theorem claim_c5_all_or_nothing (b : List Nat) :
    (∃ s, decodeBytes b = .ok s)
    ∨ (∃ e, decodeBytes b = .error e
        ∧ (∀ s, decodeBytes b ≠ .ok s)
        ∧ (∀ tag t, e = .parseError tag t →
            (splitTab b)[tagIdx tag]? = some t ∧ tagParses tag t = false)) := by
  cases hd : decodeBytes b with
  | ok s => exact Or.inl ⟨s, rfl⟩
  | error e =>
    refine Or.inr ⟨e, rfl, ?_, ?_⟩
    · intro s hs
      exact Except.noConfusion hs
    · intro tag t he
      subst he
      unfold decodeBytes at hd
      by_cases hv : validUtf8 b
      · rw [if_pos hv] at hd
        unfold decodeToks at hd
        exact decode_err_parse hd
      · rw [if_neg hv] at hd
        injection hd with hd
        exact Failure.noConfusion hd

/-! ## Claim C6 -/

/-- Claim C6: in any successful decode, the token `235` in one of the five
tenths-scaled temperature slots (positions 7 to 11) gives that field the
value 23.5 degrees Celsius, while the token `235` in the device-temperature
slot (position 12) gives 235 degrees Celsius, unscaled. -/
theorem claim_c6_temp_scale (toks : List (List Nat)) (s : Status)
    (h : decodeToks toks = .ok s) :
    (toks[(7 : Nat)]? = some (ascii "235") → s.wassertemp = 47 / 2)
    ∧ (toks[(8 : Nat)]? = some (ascii "235") → s.wassertemp_min = 47 / 2)
    ∧ (toks[(9 : Nat)]? = some (ascii "235") → s.wassertemp_max = 47 / 2)
    ∧ (toks[(10 : Nat)]? = some (ascii "235") → s.solltemp_solar = 47 / 2)
    ∧ (toks[(11 : Nat)]? = some (ascii "235") → s.solltemp_netz = 47 / 2)
    ∧ (toks[(12 : Nat)]? = some (ascii "235") → s.geraetetemp = 235) := by
  unfold decodeToks at h
  obtain ⟨h1, h2, h3, h4, h5, -, -, -, -, -, -, -, hgt, -, -, -, -, -, -, -⟩ :=
    decode_ok_fields h
  have h235 : parseF32 (ascii "235") = some 235 := by decide
  refine ⟨?_, ?_, ?_, ?_, ?_, ?_⟩
  · intro ht
    obtain ⟨t, q, hmt, hpq, hsq⟩ := h1
    obtain rfl : t = ascii "235" := Option.some.inj (hmt.symm.trans ht)
    obtain rfl : (235 : Q) = q := Option.some.inj (h235.symm.trans hpq)
    rw [hsq]; decide
  · intro ht
    obtain ⟨t, q, hmt, hpq, hsq⟩ := h2
    obtain rfl : t = ascii "235" := Option.some.inj (hmt.symm.trans ht)
    obtain rfl : (235 : Q) = q := Option.some.inj (h235.symm.trans hpq)
    rw [hsq]; decide
  · intro ht
    obtain ⟨t, q, hmt, hpq, hsq⟩ := h3
    obtain rfl : t = ascii "235" := Option.some.inj (hmt.symm.trans ht)
    obtain rfl : (235 : Q) = q := Option.some.inj (h235.symm.trans hpq)
    rw [hsq]; decide
  · intro ht
    obtain ⟨t, q, hmt, hpq, hsq⟩ := h4
    obtain rfl : t = ascii "235" := Option.some.inj (hmt.symm.trans ht)
    obtain rfl : (235 : Q) = q := Option.some.inj (h235.symm.trans hpq)
    rw [hsq]; decide
  · intro ht
    obtain ⟨t, q, hmt, hpq, hsq⟩ := h5
    obtain rfl : t = ascii "235" := Option.some.inj (hmt.symm.trans ht)
    obtain rfl : (235 : Q) = q := Option.some.inj (h235.symm.trans hpq)
    rw [hsq]; decide
  · intro ht
    obtain ⟨t, hmt, hpq⟩ := hgt
    obtain rfl : t = ascii "235" := Option.some.inj (hmt.symm.trans ht)
    exact (Option.some.inj (h235.symm.trans hpq)).symm

/-- Claim C6, witness: the statement applied to a frame carrying `235` in
all six temperature slots. -/
theorem claim_c6_temp_scale_witness :
    decodeToks (splitTab frameC6) = .ok statusC6
    ∧ statusC6.wassertemp = 47 / 2
    ∧ statusC6.solltemp_netz = 47 / 2
    ∧ statusC6.geraetetemp = 235 :=
  ⟨by decide,
   (claim_c6_temp_scale (splitTab frameC6) statusC6 (by decide)).1 (by decide),
   (claim_c6_temp_scale (splitTab frameC6) statusC6 (by decide)).2.2.2.2.1 (by decide),
   (claim_c6_temp_scale (splitTab frameC6) statusC6 (by decide)).2.2.2.2.2 (by decide)⟩

/-! ## Claim C7 -/

/-- Claim C7, counterexample: `256` is a nonzero integer token, but in the
`DcTrenner` slot it does not decode to `true`; the `u8` parse overflows and
the whole decode aborts with a structured parse error naming the slot. -/
theorem claim_c7_counterexample :
    decodeBytes frameC7 = .error (.parseError .DcTrenner (ascii "256")) := by decide

/-- Claim C7, amended: in the boolean slots, a token parsing as `u8` zero
decodes to `false` and a token parsing as a nonzero `u8` (1 to 255) decodes
to `true`; a token the `u8` parser rejects — non-numeric, negative, or 256
and above — never lets the decode produce a record at all (in particular it
is never silently treated as `false`). -/
theorem claim_c7_amended (toks : List (List Nat)) (t : List Nat)
    (h4 : toks[(4 : Nat)]? = some t) :
    (∀ s, decodeToks toks = .ok s → parseU8 t = some 0 → s.dc_trenner = false)
    ∧ (∀ s n, decodeToks toks = .ok s → parseU8 t = some n → n ≠ 0 → s.dc_trenner = true)
    ∧ (parseU8 t = none → ∀ s, decodeToks toks ≠ .ok s) := by
  refine ⟨?_, ?_, ?_⟩
  · intro s hs hp0
    unfold decodeToks at hs
    obtain ⟨-, -, -, -, -, -, -, -, -, -, -, -, -, -, hdc, -, -, -, -, -⟩ :=
      decode_ok_fields hs
    obtain ⟨t0, n, hmt, hpn, hb⟩ := hdc
    obtain rfl : t0 = t := Option.some.inj (hmt.symm.trans h4)
    obtain rfl : (0 : Nat) = n := Option.some.inj (hp0.symm.trans hpn)
    rw [hb]
    decide
  · intro s n hs hpn0 hn
    unfold decodeToks at hs
    obtain ⟨-, -, -, -, -, -, -, -, -, -, -, -, -, -, hdc, -, -, -, -, -⟩ :=
      decode_ok_fields hs
    obtain ⟨t0, n0, hmt, hpn, hb⟩ := hdc
    obtain rfl : t0 = t := Option.some.inj (hmt.symm.trans h4)
    obtain rfl : n = n0 := Option.some.inj (hpn0.symm.trans hpn)
    rw [hb]
    match n, hn with
    | n + 1, _ => rfl
  · intro hpn s hs
    unfold decodeToks at hs
    obtain ⟨-, -, -, -, -, -, -, -, -, -, -, -, -, -, hdc, -, -, -, -, -⟩ :=
      decode_ok_fields hs
    obtain ⟨t0, n, hmt, hpn0, -⟩ := hdc
    obtain rfl : t0 = t := Option.some.inj (hmt.symm.trans h4)
    rw [hpn] at hpn0
    exact Option.noConfusion hpn0

/-- Claim C7, witness: the amended statement applied to the sample frame,
whose `DcTrenner` token is `1`. -/
theorem claim_c7_amended_witness :
    decodeToks (splitTab sampleFrame) = .ok sampleStatus
    ∧ sampleStatus.dc_trenner = true :=
  ⟨by decide,
   (claim_c7_amended (splitTab sampleFrame) (ascii "1") (by decide)).2.1
     sampleStatus 1 (by decide) (by decide) (by decide)⟩

/-! ## Claim C8 -/

/-- Claim C8: decoding is a pure function of the frame bytes — two decodes
of the same byte sequence that both succeed yield records equal in every
field. -/
theorem claim_c8_deterministic (b : List Nat) (s1 s2 : Status)
    (h1 : decodeBytes b = .ok s1) (h2 : decodeBytes b = .ok s2) :
    s1.wassertemp = s2.wassertemp
    ∧ s1.wassertemp_min = s2.wassertemp_min
    ∧ s1.wassertemp_max = s2.wassertemp_max
    ∧ s1.solltemp_solar = s2.solltemp_solar
    ∧ s1.solltemp_netz = s2.solltemp_netz
    ∧ s1.solarspannung = s2.solarspannung
    ∧ s1.solarstrom = s2.solarstrom
    ∧ s1.solarleistung = s2.solarleistung
    ∧ s1.solarenergie_heute = s2.solarenergie_heute
    ∧ s1.solarenergie_gesamt = s2.solarenergie_gesamt
    ∧ s1.netzenergie_heute = s2.netzenergie_heute
    ∧ s1.iso_messung = s2.iso_messung
    ∧ s1.geraetetemp = s2.geraetetemp
    ∧ s1.status = s2.status
    ∧ s1.dc_trenner = s2.dc_trenner
    ∧ s1.dc_relais = s2.dc_relais
    ∧ s1.ac_relais = s2.ac_relais
    ∧ s1.betriebstag = s2.betriebstag
    ∧ s1.firmware = s2.firmware
    ∧ s1.seriennummer = s2.seriennummer := by
  obtain rfl : s1 = s2 := Except.ok.inj (h1.symm.trans h2)
  exact ⟨rfl, rfl, rfl, rfl, rfl, rfl, rfl, rfl, rfl, rfl, rfl, rfl, rfl, rfl, rfl,
    rfl, rfl, rfl, rfl, rfl⟩

/-- Claim C8, witness: the statement applied twice to the sample frame. -/
theorem claim_c8_deterministic_witness :
    sampleStatus.wassertemp = sampleStatus.wassertemp
    ∧ sampleStatus.wassertemp_min = sampleStatus.wassertemp_min
    ∧ sampleStatus.wassertemp_max = sampleStatus.wassertemp_max
    ∧ sampleStatus.solltemp_solar = sampleStatus.solltemp_solar
    ∧ sampleStatus.solltemp_netz = sampleStatus.solltemp_netz
    ∧ sampleStatus.solarspannung = sampleStatus.solarspannung
    ∧ sampleStatus.solarstrom = sampleStatus.solarstrom
    ∧ sampleStatus.solarleistung = sampleStatus.solarleistung
    ∧ sampleStatus.solarenergie_heute = sampleStatus.solarenergie_heute
    ∧ sampleStatus.solarenergie_gesamt = sampleStatus.solarenergie_gesamt
    ∧ sampleStatus.netzenergie_heute = sampleStatus.netzenergie_heute
    ∧ sampleStatus.iso_messung = sampleStatus.iso_messung
    ∧ sampleStatus.geraetetemp = sampleStatus.geraetetemp
    ∧ sampleStatus.status = sampleStatus.status
    ∧ sampleStatus.dc_trenner = sampleStatus.dc_trenner
    ∧ sampleStatus.dc_relais = sampleStatus.dc_relais
    ∧ sampleStatus.ac_relais = sampleStatus.ac_relais
    ∧ sampleStatus.betriebstag = sampleStatus.betriebstag
    ∧ sampleStatus.firmware = sampleStatus.firmware
    ∧ sampleStatus.seriennummer = sampleStatus.seriennummer :=
  claim_c8_deterministic sampleFrame sampleStatus sampleStatus (by decide) (by decide)

/-! ## Claim C9 -/

/-- Claim C9, counterexample: on a 29-token frame whose last token is the
serial number, the CR LF terminator is not stripped — it ends up verbatim
inside the decoded `seriennummer`, corrupting it. -/
theorem claim_c9_counterexample :
    decodeBytes frameC9 = .ok statusC9
    ∧ statusC9.seriennummer = ascii "12010023021000023\r\n"
    ∧ statusC9.seriennummer ≠ ascii "12010023021000023" := by decide

/-- Claim C9, amended: the terminator is never stripped; it travels inside
the frame's final token.  It is harmless exactly when that token lands at
wire position 29 or beyond (an unused or dropped slot): whatever bytes the
final token holds, the decode result is unchanged.  When the final token
binds a used slot — seriennummer on a 29-token frame, as in the
counterexample — the terminator bytes corrupt that field. -/
theorem claim_c9_amended (toks : List (List Nat)) (t : List Nat)
    (h : 29 ≤ toks.length) :
    decodeToks (toks ++ [t ++ [13, 10]]) = decodeToks (toks ++ [t]) := by
  unfold decodeToks
  apply decodeFromMap_congr
  intro tag htag
  have hidx : tagIdx tag ≤ 28 := (by decide : ∀ tg ∈ usedTags, tagIdx tg ≤ 28) tag htag
  show (toks ++ [t ++ [13, 10]])[tagIdx tag]? = (toks ++ [t])[tagIdx tag]?
  rw [List.getElem?_append_left (by omega), List.getElem?_append_left (by omega)]

/-- Claim C9, witness: the amended statement applied to the 31 tokens of
the sample frame with a CR-LF-terminated final token appended. -/
theorem claim_c9_amended_witness :
    29 ≤ (splitTab sampleFrame).length
    ∧ decodeToks (splitTab sampleFrame ++ [ascii "6" ++ [13, 10]])
      = decodeToks (splitTab sampleFrame ++ [ascii "6"]) :=
  ⟨by decide, claim_c9_amended (splitTab sampleFrame) (ascii "6") (by decide)⟩

/-! ## Claim C10 -/

/-- Claim C10: tokens beyond the 30 schema slots are silently ignored —
decoding any token sequence gives exactly the same result as decoding its
first 30 tokens, so extra trailing tokens can neither cause an error nor
reach any field. -/
theorem claim_c10_extra_tokens (toks : List (List Nat)) :
    decodeToks toks = decodeToks (toks.take 30) := by
  unfold decodeToks
  apply decodeFromMap_congr
  intro tag htag
  have hidx : tagIdx tag ≤ 28 := (by decide : ∀ tg ∈ usedTags, tagIdx tg ≤ 28) tag htag
  show toks[tagIdx tag]? = (toks.take 30)[tagIdx tag]?
  rw [List.getElem?_take_of_lt (by omega)]

end ElwaDC
